import Mathlib

/-
Shallow embedding of the event-registration single-page form
(src/src/components/RegistrationForm.tsx, the strict variant: regex
validation, mapped wire schema, 201-checking submit).

Strings are modelled as Lean strings (lists of Unicode code points);
the JavaScript case mappings charAt(0).toUpperCase() and
slice(1).toLowerCase() are modelled by the ASCII Char.toUpper and
Char.toLower, which agree with JavaScript on all field values the form
offers.  A JSON body is modelled only as far as the component inspects
it: an object with optional string fields message, error and detail, a
bare JSON string, or anything else (property access on those yields
undefined).  A JSON null body, on which the JavaScript property access
would throw, is outside the model.
-/

namespace Registration

/-- The mutable form record held by the component (interface FormData). -/
structure FormData where
  name : String
  branch_name : String
  student_no : String
  hackerrank : String
  phone : String
  email : String
  gender : String
  hosteller : String
  year : String
  registration_type : String
deriving DecidableEq, Repr

/-- Initial form state: every field is the empty string. -/
def initFormData : FormData :=
  { name := "", branch_name := "", student_no := "", hackerrank := "",
    phone := "", email := "", gender := "", hosteller := "",
    year := "", registration_type := "" }

/-- The client-side route the component is on. -/
inductive Route
  | entry
  | success
deriving DecidableEq, Repr

/-- Full component state: form record, reCAPTCHA token, toast error,
loading flag and current route. -/
structure ComponentState where
  formData : FormData
  recaptchaToken : Option String
  error : Option String
  isLoading : Bool
  route : Route
deriving DecidableEq, Repr

/-- The component state right after mount. -/
def initState : ComponentState :=
  { formData := initFormData, recaptchaToken := none, error := none,
    isLoading := false, route := Route.entry }

/-- Test of the character class [a-zA-Z0-9_-] from the hackerrank regex. -/
def hackerrankChar (c : Char) : Bool :=
  c.isAlpha || c.isDigit || c == '_' || c == '-'

/-- All characters of the string are ASCII digits (the regex \d). -/
def digitString (s : String) : Bool :=
  s.data.all Char.isDigit

/-- The JavaScript String endsWith check, over code points: the suffix
character sequence closes the string. -/
def jsEndsWith (s suffix : String) : Bool :=
  suffix.data.isSuffixOf s.data

/-- validateForm from the source: the four checks in order
(email domain, phone /^\d\x7b10\x7d$/, student number /^\d\x7b7,8\x7d$/,
hackerrank /^[a-zA-Z0-9_-]+$/), each failing with its message; returns
none when all pass. -/
def validateForm (fd : FormData) : Option String :=
  if !(jsEndsWith fd.email "@akgec.ac.in") then
    some "Please use your AKGEC email address"
  else if !(digitString fd.phone && fd.phone.length == 10) then
    some "Please enter a valid 10-digit phone number"
  else if !(digitString fd.student_no &&
            (fd.student_no.length == 7 || fd.student_no.length == 8)) then
    some "Please enter a valid 7 or 8-digit student number"
  else if !(fd.hackerrank.data.all hackerrankChar && !fd.hackerrank.data.isEmpty) then
    some "Please enter a valid HackerRank username (no spaces or special characters)"
  else
    none

/-- The gender recasing from apiData:
charAt(0).toUpperCase() + slice(1).toLowerCase(). -/
def jsCapitalize (s : String) : String :=
  match s.data with
  | [] => ""
  | c :: rest => String.mk (c.toUpper :: rest.map Char.toLower)

/-- apiData from handleSubmit: the wire payload as an ordered list of
JSON key-value pairs, exactly as the object literal in the source. -/
def apiData (fd : FormData) (token : String) : List (String × String) :=
  [("name", fd.name),
   ("branch_name", fd.branch_name),
   ("recaptcha_token", token),
   ("student_no", fd.student_no),
   ("hackerrank", fd.hackerrank),
   ("phone", fd.phone),
   ("email", fd.email),
   ("gender", jsCapitalize fd.gender),
   ("hosteller", if fd.hosteller = "yes" then "True" else "False"),
   ("year", fd.year),
   ("registration_type",
    if fd.registration_type = "workshop_contest" then "contest_workshop"
    else "contest")]

/-- A response body as far as the component inspects it after
response.json(): an object with the three optional string fields it
reads, a bare JSON string, or any other JSON value. -/
inductive ParsedBody
  | obj (message err detail : Option String)
  | str (s : String)
  | other
deriving DecidableEq, Repr

/-- An HTTP response: status code and the parse result of its body
(none when response.json() rejects). -/
structure HttpResponse where
  status : Nat
  body : Option ParsedBody
deriving DecidableEq, Repr

/-- Outcome of the fetch call: a response, or a rejection of fetch
itself (network error) carrying the Error message. -/
inductive FetchOutcome
  | ok (resp : HttpResponse)
  | fail (msg : String)
deriving DecidableEq, Repr

/-- JavaScript truthiness of a possibly-absent string property:
undefined and the empty string are falsy. -/
def jsTruthy : Option String → Option String
  | some s => if s = "" then none else some s
  | none => none

/-- The fallback body installed by .catch when response.json() rejects. -/
def parseFallback : ParsedBody :=
  ParsedBody.obj (some "Failed to parse response") none none

/-- errorMessage from handleSubmit:
data.message, or data.error, or data.detail, or data itself when it is
a string, or the generic fallback, with JavaScript truthiness at each
step. -/
def serverMessage : ParsedBody → String
  | ParsedBody.obj m e d =>
    match jsTruthy m with
    | some s => s
    | none =>
      match jsTruthy e with
      | some s => s
      | none =>
        match jsTruthy d with
        | some s => s
        | none => "Registration failed"
  | ParsedBody.str s => s
  | ParsedBody.other => "Registration failed"

/-- The catch clause: setError(error.message or the generic fallback),
again with JavaScript truthiness. -/
def displayedError (m : String) : String :=
  if m = "" then "Registration failed. Please try again." else m

/-- Result of one complete run of handleSubmit: the final component
state and, when a POST was issued, its JSON body. -/
structure SubmitResult where
  state : ComponentState
  networkCall : Option (List (String × String))
deriving DecidableEq, Repr

/-- handleSubmit from the source, as a function of the current state
and of the outcome the network would return.  Early returns on a
missing token and on validation failure issue no call; otherwise the
payload is built, isLoading is set, one POST is issued, a non-201
status raises the best-effort server message, a 201 navigates to
/success, and the finally clause clears isLoading on every path that
set it. -/
def handleSubmit (s : ComponentState) (o : FetchOutcome) : SubmitResult :=
  match s.recaptchaToken with
  | none =>
    { state := { s with error := some "Please complete the reCAPTCHA verification" },
      networkCall := none }
  | some token =>
    match validateForm s.formData with
    | some msg =>
      { state := { s with error := some msg }, networkCall := none }
    | none =>
      let payload := apiData s.formData token
      match o with
      | FetchOutcome.fail msg =>
        { state := { s with error := some (displayedError msg), isLoading := false },
          networkCall := some payload }
      | FetchOutcome.ok resp =>
        let data := resp.body.getD parseFallback
        if resp.status ≠ 201 then
          { state :=
              { s with
                error := some (displayedError (serverMessage data)),
                isLoading := false },
            networkCall := some payload }
        else
          { state := { s with route := Route.success, isLoading := false },
            networkCall := some payload }

/-- The ten form controls, by their name attribute. -/
inductive Field
  | name
  | branch_name
  | student_no
  | hackerrank
  | phone
  | email
  | gender
  | hosteller
  | year
  | registration_type
deriving DecidableEq, Repr

/-- The generic setFormData update: write the value into exactly the
named field. -/
def setField (fd : FormData) (f : Field) (v : String) : FormData :=
  match f with
  | Field.name => { fd with name := v }
  | Field.branch_name => { fd with branch_name := v }
  | Field.student_no => { fd with student_no := v }
  | Field.hackerrank => { fd with hackerrank := v }
  | Field.phone => { fd with phone := v }
  | Field.email => { fd with email := v }
  | Field.gender => { fd with gender := v }
  | Field.hosteller => { fd with hosteller := v }
  | Field.year => { fd with year := v }
  | Field.registration_type => { fd with registration_type := v }

/-- value.replace with the non-digit regex and the empty string, then
slice(0, n): keep the digits, truncated to n characters. -/
def formattedValue (v : String) (n : Nat) : String :=
  String.mk ((v.data.filter Char.isDigit).take n)

/-- handleChange from the source: phone and student_no edits store the
digit-stripped, length-capped value; a year edit to "1" also forces
registration_type to workshop_contest in the same update; every other
edit writes the raw value into its field. -/
def handleChange (fd : FormData) (f : Field) (v : String) : FormData :=
  match f with
  | Field.phone => { fd with phone := formattedValue v 10 }
  | Field.student_no => { fd with student_no := formattedValue v 8 }
  | Field.year =>
    if v = "1" then { fd with year := v, registration_type := "workshop_contest" }
    else setField fd Field.year v
  | f => setField fd f v

/-- One user-interface event applied to the component state.  A
fieldEdit of registration_type carries the proof that the control is
enabled: the select has disabled set while year is "1".  yearEffect is
the useEffect on formData.year, which rewrites registration_type to
workshop_contest while year is "1". -/
inductive Step : ComponentState → ComponentState → Prop
  | fieldEdit (s : ComponentState) (f : Field) (v : String)
      (hen : f = Field.registration_type → s.formData.year ≠ "1") :
      Step s { s with formData := handleChange s.formData f v }
  | captcha (s : ComponentState) (t : Option String) :
      Step s { s with recaptchaToken := t }
  | closeToast (s : ComponentState) :
      Step s { s with error := none }
  | yearEffect (s : ComponentState) (h : s.formData.year = "1") :
      Step s { s with formData := { s.formData with registration_type := "workshop_contest" } }
  | submit (s : ComponentState) (o : FetchOutcome) :
      Step s (handleSubmit s o).state

/-- States reachable from the freshly mounted component. -/
inductive Reachable : ComponentState → Prop
  | init : Reachable initState
  | step {s t : ComponentState} : Reachable s → Step s t → Reachable t

/-- A fully valid sample form record, used by concrete witnesses. -/
def validSample : FormData :=
  { name := "Asha Gupta", branch_name := "CSE", student_no := "2300123",
    hackerrank := "asha-gupta_1", phone := "9876543210",
    email := "asha@akgec.ac.in", gender := "male", hosteller := "yes",
    year := "2", registration_type := "contest" }

/-- A component state holding the valid sample and a CAPTCHA token. -/
def validState : ComponentState :=
  { formData := validSample, recaptchaToken := some "tok123", error := none,
    isLoading := false, route := Route.entry }

/-- The invalid sample from the specification: wrong email domain,
short phone, short student number, hackerrank with a space and a bang. -/
def badSample : FormData :=
  { validSample with
    email := "a@other.com", phone := "12345",
    student_no := "123", hackerrank := "bad name!" }

/-- A component state holding the invalid sample and a CAPTCHA token. -/
def badState : ComponentState :=
  { validState with formData := badSample }

/-- A 400 response whose JSON body reports a duplicate email. -/
def dupResp : HttpResponse :=
  { status := 400,
    body := some (ParsedBody.obj (some "Email already registered") none none) }

/-- The state after one edit on the fresh form: set year to "1". -/
def afterYearOne : ComponentState :=
  { initState with formData := handleChange initFormData Field.year "1" }

/-- The state invariant maintained by every event: phone and student_no
hold only digits within their caps, and first-year states carry the
forced registration type. -/
def stateInv (s : ComponentState) : Prop :=
  (s.formData.phone.data.all Char.isDigit = true ∧ s.formData.phone.length ≤ 10)
  ∧ (s.formData.student_no.data.all Char.isDigit = true ∧ s.formData.student_no.length ≤ 8)
  ∧ (s.formData.year = "1" → s.formData.registration_type = "workshop_contest")

lemma formattedValue_all_digits (v : String) (n : Nat) :
    (formattedValue v n).data.all Char.isDigit = true := by
  rw [List.all_eq_true]
  intro c hc
  exact (List.mem_filter.mp (List.take_subset n _ hc)).2

lemma formattedValue_length_le (v : String) (n : Nat) :
    (formattedValue v n).length ≤ n :=
  List.length_take_le n _

/-- Unfolding of the year branch of handleChange. -/
lemma handleChange_year_eq (fd : FormData) (v : String) :
    handleChange fd Field.year v =
      if v = "1" then { fd with year := v, registration_type := "workshop_contest" }
      else setField fd Field.year v := rfl

/-- handleSubmit never writes to the form record. -/
lemma handleSubmit_formData (s : ComponentState) (o : FetchOutcome) :
    (handleSubmit s o).state.formData = s.formData := by
  unfold handleSubmit
  cases h : s.recaptchaToken with
  | none => rfl
  | some token =>
    cases hv : validateForm s.formData with
    | some msg => rfl
    | none =>
      cases o with
      | fail m => rfl
      | ok resp =>
        by_cases hst : resp.status = 201 <;> simp [hst]

lemma reachable_inv {s : ComponentState} (hs : Reachable s) : stateInv s := by
  induction hs with
  | init => exact ⟨⟨rfl, by decide⟩, ⟨rfl, by decide⟩, fun h => absurd h (by decide)⟩
  | step _ hstep ih =>
    cases hstep with
    | fieldEdit f v hen =>
      cases f with
      | phone =>
        exact ⟨⟨formattedValue_all_digits v 10, formattedValue_length_le v 10⟩,
               ih.2.1, ih.2.2⟩
      | student_no =>
        exact ⟨ih.1, ⟨formattedValue_all_digits v 8, formattedValue_length_le v 8⟩,
               ih.2.2⟩
      | year =>
        rw [handleChange_year_eq]
        by_cases hv : v = "1"
        · rw [if_pos hv]
          exact ⟨ih.1, ih.2.1, fun _ => rfl⟩
        · rw [if_neg hv]
          exact ⟨ih.1, ih.2.1, fun h => absurd h hv⟩
      | registration_type =>
        exact ⟨ih.1, ih.2.1, fun h => absurd h (hen rfl)⟩
      | name => exact ih
      | branch_name => exact ih
      | hackerrank => exact ih
      | email => exact ih
      | gender => exact ih
      | hosteller => exact ih
    | captcha t => exact ih
    | closeToast => exact ih
    | yearEffect h => exact ⟨ih.1, ih.2.1, fun _ => rfl⟩
    | submit o =>
      unfold stateInv
      rw [handleSubmit_formData]
      exact ih

/-- C4: for every state with the reCAPTCHA token unset, submit surfaces
the verification message, issues no network call, and leaves the form
record unchanged. -/
theorem C4_missing_captcha (s : ComponentState) (o : FetchOutcome)
    (h : s.recaptchaToken = none) :
    (handleSubmit s o).state.error = some "Please complete the reCAPTCHA verification"
  ∧ (handleSubmit s o).networkCall = none
  ∧ (handleSubmit s o).state.formData = s.formData := by
  unfold handleSubmit
  rw [h]
  exact ⟨rfl, rfl, rfl⟩

/-- Concrete instance of C4_missing_captcha at the freshly mounted
state and a failing fetch. -/
theorem C4_missing_captcha_witness :
    (handleSubmit initState (FetchOutcome.fail "boom")).state.error
      = some "Please complete the reCAPTCHA verification"
  ∧ (handleSubmit initState (FetchOutcome.fail "boom")).networkCall = none
  ∧ (handleSubmit initState (FetchOutcome.fail "boom")).state.formData = initState.formData :=
  C4_missing_captcha initState (FetchOutcome.fail "boom") rfl

/-- C8: every run of submit that issues the POST (and hence set
isLoading) finishes with isLoading cleared, and a run started while no
submission is in flight always finishes with isLoading false. -/
theorem C8_loading_cleared (s : ComponentState) (o : FetchOutcome) :
    ((handleSubmit s o).networkCall.isSome = true → (handleSubmit s o).state.isLoading = false)
  ∧ (s.isLoading = false → (handleSubmit s o).state.isLoading = false) := by
  unfold handleSubmit
  cases h : s.recaptchaToken with
  | none => exact ⟨fun hc => by simp at hc, fun hl => hl⟩
  | some token =>
    cases hv : validateForm s.formData with
    | some msg => exact ⟨fun hc => by simp at hc, fun hl => hl⟩
    | none =>
      cases o with
      | fail m => exact ⟨fun _ => rfl, fun _ => rfl⟩
      | ok resp => by_cases hst : resp.status = 201 <;> simp [hst]

/-- Concrete instance of C8_loading_cleared at the valid sample state
and a 500 response. -/
theorem C8_loading_cleared_witness :
    (handleSubmit validState (FetchOutcome.ok { status := 500, body := none })).state.isLoading
      = false :=
  (C8_loading_cleared validState (FetchOutcome.ok { status := 500, body := none })).2 rfl

/-- C9: in the wire payload, any hosteller value other than "yes" is
sent as "False", any registration_type other than "workshop_contest" is
sent as "contest", and an empty gender is sent as the empty string. -/
theorem C9_wire_defaults (fd : FormData) (token : String) :
    (fd.hosteller ≠ "yes" → (apiData fd token).lookup "hosteller" = some "False")
  ∧ (fd.registration_type ≠ "workshop_contest" →
      (apiData fd token).lookup "registration_type" = some "contest")
  ∧ (fd.gender = "" → (apiData fd token).lookup "gender" = some "") := by
  refine ⟨fun h1 => ?_, fun h2 => ?_, fun h3 => ?_⟩
  · simp [apiData, List.lookup, h1]
  · simp [apiData, List.lookup, h2]
  · simp [apiData, List.lookup, h3, jsCapitalize]

/-- Concrete instance of C9_wire_defaults at the untouched form record,
whose hosteller, registration_type and gender are all empty. -/
theorem C9_wire_defaults_witness :
    (apiData initFormData "t").lookup "hosteller" = some "False"
  ∧ (apiData initFormData "t").lookup "registration_type" = some "contest"
  ∧ (apiData initFormData "t").lookup "gender" = some "" :=
  ⟨(C9_wire_defaults initFormData "t").1 (by decide),
   (C9_wire_defaults initFormData "t").2.1 (by decide),
   (C9_wire_defaults initFormData "t").2.2 rfl⟩

/-- C10: validateForm reads only email, phone, student_no and
hackerrank: rewriting any of the other six fields leaves its result
unchanged, and whenever the four checks pass it returns success, so an
empty name is never rejected. -/
theorem C10_validate_only_four (fd : FormData) (v : String) :
    validateForm { fd with name := v } = validateForm fd
  ∧ validateForm { fd with branch_name := v } = validateForm fd
  ∧ validateForm { fd with gender := v } = validateForm fd
  ∧ validateForm { fd with hosteller := v } = validateForm fd
  ∧ validateForm { fd with year := v } = validateForm fd
  ∧ validateForm { fd with registration_type := v } = validateForm fd
  ∧ (jsEndsWith fd.email "@akgec.ac.in" = true →
     (digitString fd.phone && fd.phone.length == 10) = true →
     (digitString fd.student_no && (fd.student_no.length == 7 || fd.student_no.length == 8)) = true →
     (fd.hackerrank.data.all hackerrankChar && !fd.hackerrank.data.isEmpty) = true →
     validateForm fd = none) := by
  refine ⟨rfl, rfl, rfl, rfl, rfl, rfl, fun h1 h2 h3 h4 => ?_⟩
  unfold validateForm
  rw [h1, h2, h3, h4]
  rfl

/-- Concrete instance of C10_validate_only_four: the valid sample with
its name erased still validates. -/
theorem C10_validate_only_four_witness :
    validateForm { validSample with name := "" } = none :=
  (C10_validate_only_four { validSample with name := "" } "x").2.2.2.2.2.2
    (by decide) (by decide) (by decide) (by decide)

lemma serverMessage_msg (m : String) (e d : Option String) (h : m ≠ "") :
    serverMessage (ParsedBody.obj (some m) e d) = m := by
  simp [serverMessage, jsTruthy, h]

lemma displayedError_ne (m : String) (h : m ≠ "") : displayedError m = m := by
  simp [displayedError, h]

/-- Setting year to "1" is an enabled edit from the fresh state. -/
lemma reachable_afterYearOne : Reachable afterYearOne :=
  Reachable.step Reachable.init
    (Step.fieldEdit initState Field.year "1" (fun h => Field.noConfusion h))

/-- C1: when submit passes the CAPTCHA and validation checks, the POST
body holds exactly the eleven wire keys, with gender recased to first
letter upper and rest lower, hosteller "yes" sent as "True" and every
other value as "False", registration_type "workshop_contest" sent as
"contest_workshop" and "contest" as "contest", and every other field
forwarded unchanged. -/
theorem C1_wire_payload (s : ComponentState) (token : String) (o : FetchOutcome)
    (htok : s.recaptchaToken = some token)
    (hval : validateForm s.formData = none) :
    (handleSubmit s o).networkCall = some
      [("name", s.formData.name),
       ("branch_name", s.formData.branch_name),
       ("recaptcha_token", token),
       ("student_no", s.formData.student_no),
       ("hackerrank", s.formData.hackerrank),
       ("phone", s.formData.phone),
       ("email", s.formData.email),
       ("gender", jsCapitalize s.formData.gender),
       ("hosteller", if s.formData.hosteller = "yes" then "True" else "False"),
       ("year", s.formData.year),
       ("registration_type",
        if s.formData.registration_type = "workshop_contest" then "contest_workshop"
        else "contest")] := by
  unfold handleSubmit
  rw [htok, hval]
  cases o with
  | fail m => rfl
  | ok resp => by_cases hst : resp.status = 201 <;> simp [hst, apiData]

/-- Concrete instance of C1_wire_payload at the valid sample. -/
theorem C1_wire_payload_witness :
    (handleSubmit validState (FetchOutcome.ok { status := 201, body := some ParsedBody.other })).networkCall
      = some
      [("name", "Asha Gupta"),
       ("branch_name", "CSE"),
       ("recaptcha_token", "tok123"),
       ("student_no", "2300123"),
       ("hackerrank", "asha-gupta_1"),
       ("phone", "9876543210"),
       ("email", "asha@akgec.ac.in"),
       ("gender", "Male"),
       ("hosteller", "True"),
       ("year", "2"),
       ("registration_type", "contest")] :=
  (C1_wire_payload validState "tok123"
    (FetchOutcome.ok { status := 201, body := some ParsedBody.other })
    rfl (by decide)).trans (by decide)

/-- C2: validateForm applies the four rules in the fixed order email
domain, phone, student number, hackerrank, failing with the first
violated rule's message, succeeding when all hold; and a failing
validation makes submit abort without a network call. -/
theorem C2_validation_order (fd : FormData) (s : ComponentState) (o : FetchOutcome) :
    (jsEndsWith fd.email "@akgec.ac.in" = false →
      validateForm fd = some "Please use your AKGEC email address")
  ∧ (jsEndsWith fd.email "@akgec.ac.in" = true →
     (digitString fd.phone && fd.phone.length == 10) = false →
      validateForm fd = some "Please enter a valid 10-digit phone number")
  ∧ (jsEndsWith fd.email "@akgec.ac.in" = true →
     (digitString fd.phone && fd.phone.length == 10) = true →
     (digitString fd.student_no && (fd.student_no.length == 7 || fd.student_no.length == 8)) = false →
      validateForm fd = some "Please enter a valid 7 or 8-digit student number")
  ∧ (jsEndsWith fd.email "@akgec.ac.in" = true →
     (digitString fd.phone && fd.phone.length == 10) = true →
     (digitString fd.student_no && (fd.student_no.length == 7 || fd.student_no.length == 8)) = true →
     (fd.hackerrank.data.all hackerrankChar && !fd.hackerrank.data.isEmpty) = false →
      validateForm fd = some "Please enter a valid HackerRank username (no spaces or special characters)")
  ∧ (jsEndsWith fd.email "@akgec.ac.in" = true →
     (digitString fd.phone && fd.phone.length == 10) = true →
     (digitString fd.student_no && (fd.student_no.length == 7 || fd.student_no.length == 8)) = true →
     (fd.hackerrank.data.all hackerrankChar && !fd.hackerrank.data.isEmpty) = true →
      validateForm fd = none)
  ∧ (∀ msg, validateForm s.formData = some msg → (handleSubmit s o).networkCall = none) := by
  refine ⟨fun h1 => ?_, fun h1 h2 => ?_, fun h1 h2 h3 => ?_, fun h1 h2 h3 h4 => ?_,
          fun h1 h2 h3 h4 => ?_, fun msg hmsg => ?_⟩
  · simp [validateForm, h1]
  · simp [validateForm, h1, h2]
  · simp [validateForm, h1, h2, h3]
  · simp [validateForm, h1, h2, h3, h4]
  · simp [validateForm, h1, h2, h3, h4]
  · unfold handleSubmit
    cases htok : s.recaptchaToken with
    | none => rfl
    | some t => rw [hmsg]

/-- Concrete instance of C2_validation_order at the invalid sample of
the specification: rejection happens on the first rule and submit
issues no call. -/
theorem C2_validation_order_witness :
    validateForm badSample = some "Please use your AKGEC email address"
  ∧ (handleSubmit badState (FetchOutcome.fail "x")).networkCall = none :=
  ⟨(C2_validation_order badSample badState (FetchOutcome.fail "x")).1 (by decide),
   (C2_validation_order badSample badState (FetchOutcome.fail "x")).2.2.2.2.2
     "Please use your AKGEC email address"
     ((C2_validation_order badSample badState (FetchOutcome.fail "x")).1 (by decide))⟩

/-- C3 as stated is false: a 201 response whose body fails to parse as
JSON is not treated as a submission failure; the component still
navigates to /success and surfaces no error. -/
theorem C3_parse_failure_not_failure :
    (handleSubmit validState (FetchOutcome.ok { status := 201, body := none })).state.route
      = Route.success
  ∧ (handleSubmit validState (FetchOutcome.ok { status := 201, body := none })).state.error
      = none := by
  exact ⟨by decide, by decide⟩

/-- C3 amended: submit treats any response with status other than 201
(hence any non-2xx response) as a submission failure, surfacing a
message that prefers the server-provided message, error and detail
fields and falls back to a generic string, with the parse fallback
standing in when the body does not parse; a 201 response results in
navigation to /success even when its body fails to parse. -/
theorem C3_amended_status_driven (s : ComponentState) (token : String) (resp : HttpResponse)
    (htok : s.recaptchaToken = some token)
    (hval : validateForm s.formData = none) :
    (resp.status ≠ 201 →
       (handleSubmit s (FetchOutcome.ok resp)).state.route = s.route
     ∧ (handleSubmit s (FetchOutcome.ok resp)).state.error
         = some (displayedError (serverMessage (resp.body.getD parseFallback))))
  ∧ (resp.status = 201 →
       (handleSubmit s (FetchOutcome.ok resp)).state.route = Route.success)
  ∧ (resp.status ≠ 201 → resp.body = none →
       (handleSubmit s (FetchOutcome.ok resp)).state.error = some "Failed to parse response")
  ∧ (∀ m e d, m ≠ "" → serverMessage (ParsedBody.obj (some m) e d) = m)
  ∧ (∀ e d, e ≠ "" → serverMessage (ParsedBody.obj none (some e) d) = e)
  ∧ (∀ d, d ≠ "" → serverMessage (ParsedBody.obj none none (some d)) = d)
  ∧ serverMessage (ParsedBody.obj none none none) = "Registration failed" := by
  refine ⟨fun hst => ?_, fun hst => ?_, fun hst hb => ?_,
          fun m e d h => serverMessage_msg m e d h,
          fun e d h => ?_, fun d h => ?_, rfl⟩
  · unfold handleSubmit
    rw [htok, hval]
    simp [hst]
  · unfold handleSubmit
    rw [htok, hval]
    simp [hst]
  · unfold handleSubmit
    rw [htok, hval]
    simp [hst, hb, parseFallback, serverMessage, jsTruthy, displayedError]
  · simp [serverMessage, jsTruthy, h]
  · simp [serverMessage, jsTruthy, h]

/-- Concrete instance of C3_amended_status_driven at a 400 response
carrying a server message. -/
theorem C3_amended_status_driven_witness :
    (handleSubmit validState (FetchOutcome.ok dupResp)).state.route = Route.entry
  ∧ (handleSubmit validState (FetchOutcome.ok dupResp)).state.error
      = some "Email already registered" :=
  ⟨((C3_amended_status_driven validState "tok123" dupResp rfl (by decide)).1
      (by decide)).1,
   (((C3_amended_status_driven validState "tok123" dupResp rfl (by decide)).1
      (by decide)).2).trans (by decide)⟩

/-- C5: a phone edit stores the input with the non-digits removed and
truncated to 10 characters, a student_no edit with the non-digits
removed and truncated to 8 characters, at edit time; hence after any
sequence of events the stored phone holds only digits with length at
most 10 and the stored student_no only digits with length at most 8. -/
theorem C5_digit_normalization (fd : FormData) (v : String) (s : ComponentState)
    (hs : Reachable s) :
    (handleChange fd Field.phone v).phone = String.mk ((v.data.filter Char.isDigit).take 10)
  ∧ (handleChange fd Field.student_no v).student_no
      = String.mk ((v.data.filter Char.isDigit).take 8)
  ∧ ((handleChange fd Field.phone v).phone.data.all Char.isDigit = true
     ∧ (handleChange fd Field.phone v).phone.length ≤ 10)
  ∧ ((handleChange fd Field.student_no v).student_no.data.all Char.isDigit = true
     ∧ (handleChange fd Field.student_no v).student_no.length ≤ 8)
  ∧ (s.formData.phone.data.all Char.isDigit = true ∧ s.formData.phone.length ≤ 10)
  ∧ (s.formData.student_no.data.all Char.isDigit = true ∧ s.formData.student_no.length ≤ 8) := by
  have h := reachable_inv hs
  exact ⟨rfl, rfl,
         ⟨formattedValue_all_digits v 10, formattedValue_length_le v 10⟩,
         ⟨formattedValue_all_digits v 8, formattedValue_length_le v 8⟩,
         h.1, h.2.1⟩

/-- Concrete instance of C5_digit_normalization on a noisy input. -/
theorem C5_digit_normalization_witness :
    (handleChange initFormData Field.phone "+91 98765-43210xx").phone = "9198765432"
  ∧ (handleChange initFormData Field.student_no "23abc001234567").student_no = "23001234" :=
  ⟨((C5_digit_normalization initFormData "+91 98765-43210xx" initState Reachable.init).1).trans
     (by decide),
   ((C5_digit_normalization initFormData "23abc001234567" initState Reachable.init).2.1).trans
     (by decide)⟩

/-- C6: an edit setting year to "1" forces registration_type to
workshop_contest in the same state update; since the registration_type
control is disabled while year is "1", every reachable state with year
"1" has registration_type workshop_contest. -/
theorem C6_first_year_forcing (fd : FormData) (s : ComponentState) (hs : Reachable s) :
    (handleChange fd Field.year "1").year = "1"
  ∧ (handleChange fd Field.year "1").registration_type = "workshop_contest"
  ∧ (s.formData.year = "1" → s.formData.registration_type = "workshop_contest") := by
  refine ⟨?_, ?_, (reachable_inv hs).2.2⟩
  · rw [handleChange_year_eq, if_pos rfl]
  · rw [handleChange_year_eq, if_pos rfl]

/-- Concrete instance of C6_first_year_forcing at the reachable state
reached by setting year to "1" on the fresh form. -/
theorem C6_first_year_forcing_witness :
    (handleChange initFormData Field.year "1").year = "1"
  ∧ (handleChange initFormData Field.year "1").registration_type = "workshop_contest"
  ∧ (afterYearOne.formData.year = "1" →
      afterYearOne.formData.registration_type = "workshop_contest") :=
  C6_first_year_forcing initFormData afterYearOne reachable_afterYearOne

/-- C7: submit never changes the form fields; on every failure path
(missing CAPTCHA, validation failure, fetch rejection, non-201 status)
the component stays on its route; and a non-201 response whose JSON
body carries the message "Email already registered" displays exactly
that text. -/
theorem C7_failure_preserves_form (s : ComponentState) (o : FetchOutcome) :
    (handleSubmit s o).state.formData = s.formData
  ∧ (s.recaptchaToken = none → (handleSubmit s o).state.route = s.route)
  ∧ (∀ msg, validateForm s.formData = some msg → (handleSubmit s o).state.route = s.route)
  ∧ (∀ m, o = FetchOutcome.fail m → (handleSubmit s o).state.route = s.route)
  ∧ (∀ resp, o = FetchOutcome.ok resp → resp.status ≠ 201 →
       (handleSubmit s o).state.route = s.route)
  ∧ (∀ resp e d, o = FetchOutcome.ok resp → resp.status ≠ 201 →
       s.recaptchaToken ≠ none → validateForm s.formData = none →
       resp.body = some (ParsedBody.obj (some "Email already registered") e d) →
       (handleSubmit s o).state.error = some "Email already registered") := by
  refine ⟨handleSubmit_formData s o, fun h => ?_, fun msg hmsg => ?_,
          fun m ho => ?_, fun resp ho hst => ?_, fun resp e d ho hst htok hv hb => ?_⟩
  · unfold handleSubmit
    rw [h]
  · unfold handleSubmit
    cases htok : s.recaptchaToken with
    | none => rfl
    | some t => rw [hmsg]
  · subst ho
    unfold handleSubmit
    cases htok : s.recaptchaToken with
    | none => rfl
    | some t =>
      cases hv : validateForm s.formData with
      | some msg => rfl
      | none => rfl
  · subst ho
    unfold handleSubmit
    cases htok2 : s.recaptchaToken with
    | none => rfl
    | some t =>
      cases hv : validateForm s.formData with
      | some msg => rfl
      | none => simp [hst]
  · subst ho
    unfold handleSubmit
    cases htok2 : s.recaptchaToken with
    | none => exact absurd htok2 htok
    | some t =>
      rw [hv]
      simp [hst, hb,
        serverMessage_msg "Email already registered" e d (by decide),
        displayedError_ne "Email already registered" (by decide)]

/-- Concrete instance of C7_failure_preserves_form at the valid sample
state and a 400 duplicate-email response. -/
theorem C7_failure_preserves_form_witness :
    (handleSubmit validState (FetchOutcome.ok dupResp)).state.formData = validState.formData
  ∧ (handleSubmit validState (FetchOutcome.ok dupResp)).state.error
      = some "Email already registered" :=
  ⟨(C7_failure_preserves_form validState (FetchOutcome.ok dupResp)).1,
   (C7_failure_preserves_form validState (FetchOutcome.ok dupResp)).2.2.2.2.2
     dupResp none none rfl (by decide) (by decide) (by decide) rfl⟩

end Registration
